import Mathlib

/-!
Verification of the user-behavior collection strategy and the realtime
recommendation cache of the SeSAC-DA1/frontend repository.

The definitions below are a shallow embedding of
`src/strategies/user_behavior_strategy.py` and of the
`RealtimeRecommendationCache` class of `src/database/realtime_learning.py`.

Modelling conventions:
  * Python `float` values are modelled as `ℚ` (all constants in the source are
    decimal literals, and every property proved here concerns order or exact
    decimal arithmetic, both of which `ℚ` reflects faithfully).
  * `datetime` values are modelled as integer numbers of seconds;
    `timedelta(minutes=5)` is `300`, `timedelta(days=1)` is `86400`.
  * A Python `dict` payload is modelled as a structure of `Option` fields:
    `none` means the key is absent, so `payload.get(k, d)` is `field.getD d`
    and `payload[k]` raising `KeyError` corresponds to the `none` case.
  * Strings are compared through their character lists, matching Python's
    code-point semantics of `len`, `startswith` and `in`.
-/

/-- Substring containment on character lists: Python's `sub in s`.
`charsContain [] l = true` for every `l`, as in Python. -/
def charsContain (sub : List Char) : List Char → Bool
  | [] => sub.isEmpty
  | c :: cs => sub.isPrefixOf (c :: cs) || charsContain sub cs

/-- Python `sub in s` (substring containment). -/
def strContains (s sub : String) : Bool := charsContain sub.toList s.toList

/-- Python `s.startswith(pre)`. -/
def strStartsWith (s pre : String) : Bool := pre.toList.isPrefixOf s.toList

/-- Python `len(s)` (number of code points). -/
def strLen (s : String) : Nat := s.toList.length

/-- Python `s[:-1]` (drop the last character). -/
def strDropLast (s : String) : String := ⟨s.toList.dropLast⟩

/-- Python `s.endswith('*')`, specialised to one-character suffixes. -/
def strEndsWithChar (s : String) (c : Char) : Bool := s.toList.getLast? == some c

/-- Embeds `class BehaviorPriority(Enum)` of `user_behavior_strategy.py`. -/
inductive BehaviorPriority
  | critical
  | high
  | medium
  | low
  | background
  deriving DecidableEq

/-- The numeric `Enum` value of each priority (`CRITICAL = 1`, …,
`BACKGROUND = 5`). -/
def BehaviorPriority.value : BehaviorPriority → Nat
  | .critical => 1
  | .high => 2
  | .medium => 3
  | .low => 4
  | .background => 5

/-- Embeds `class CollectionMethod(Enum)` of `user_behavior_strategy.py`. -/
inductive CollectionMethod
  | real_time
  | batch_fast
  | batch_regular
  | batch_slow
  | offline
  deriving DecidableEq

/-- Embeds the dataclass `CollectionRule` of `user_behavior_strategy.py`. -/
structure CollectionRule where
  event_patterns : List String
  priority : BehaviorPriority
  collection_method : CollectionMethod
  retention_days : Nat
  processing_delay_seconds : Nat
  batch_size : Option Nat := none
  requires_auth : Bool := false
  deriving DecidableEq

/-- An incoming event payload: the `event_data : Dict[str, Any]` argument of
`collect_behavior`.  Each field models one key of the dict; `none` means the
key is absent.  `timestamp` is the payload's own timestamp field, which
`_classify_event` never reads. -/
structure EventData where
  user_id : Option String := none
  event_type : Option String := none
  timestamp : Option Int := none
  vehicle_id : Option String := none
  session_id : Option String := none
  page_path : Option String := none
  referrer : Option String := none
  duration_seconds : Option ℚ := none
  scroll_depth : Option ℚ := none
  click_count : Option Nat := none
  device_type : Option String := none
  browser : Option String := none
  location : Option String := none
  repeat_visitor : Bool := false
  premium_user : Bool := false

/-- Embeds the dataclass `BehaviorEvent` of `user_behavior_strategy.py`.  The
`timestamp` is the one stamped by `_classify_event` (`datetime.now()`). -/
structure BehaviorEvent where
  user_id : String
  event_type : String
  timestamp : Int
  priority : BehaviorPriority
  collection_method : CollectionMethod
  vehicle_id : Option String := none
  session_id : Option String := none
  page_path : Option String := none
  referrer : Option String := none
  duration_seconds : Option ℚ := none
  scroll_depth : Option ℚ := none
  click_count : Option Nat := none
  device_type : Option String := none
  browser : Option String := none
  location : Option String := none
  conversion_value : ℚ := 0
  lead_score : ℚ := 0
  raw_data : Option EventData := none

/-- The `"purchase"` entry of `_define_collection_rules`. -/
def purchase_rule : CollectionRule :=
  { event_patterns := ["purchase_*", "contract_*", "payment_*"]
    priority := .critical
    collection_method := .real_time
    retention_days := 2555
    processing_delay_seconds := 0
    requires_auth := true }

/-- The `"inquiry"` entry of `_define_collection_rules`. -/
def inquiry_rule : CollectionRule :=
  { event_patterns := ["inquiry_*", "quote_request", "contact_*"]
    priority := .critical
    collection_method := .real_time
    retention_days := 1825
    processing_delay_seconds := 0 }

/-- The `"engagement"` entry of `_define_collection_rules`. -/
def engagement_rule : CollectionRule :=
  { event_patterns := ["like", "favorite", "save", "share"]
    priority := .high
    collection_method := .batch_fast
    retention_days := 365
    processing_delay_seconds := 60
    batch_size := some 100 }

/-- The `"comparison"` entry of `_define_collection_rules`. -/
def comparison_rule : CollectionRule :=
  { event_patterns := ["compare_*", "wishlist_*"]
    priority := .high
    collection_method := .batch_fast
    retention_days := 365
    processing_delay_seconds := 60
    batch_size := some 100 }

/-- The `"navigation"` entry of `_define_collection_rules`. -/
def navigation_rule : CollectionRule :=
  { event_patterns := ["page_view", "search", "filter"]
    priority := .medium
    collection_method := .batch_regular
    retention_days := 90
    processing_delay_seconds := 300
    batch_size := some 500 }

/-- The `"session"` entry of `_define_collection_rules`. -/
def session_rule : CollectionRule :=
  { event_patterns := ["session_*", "scroll", "hover"]
    priority := .low
    collection_method := .batch_slow
    retention_days := 30
    processing_delay_seconds := 1800
    batch_size := some 2000 }

/-- The `"analytics"` entry of `_define_collection_rules`. -/
def analytics_rule : CollectionRule :=
  { event_patterns := ["analytics_*", "performance_*"]
    priority := .background
    collection_method := .offline
    retention_days := 7
    processing_delay_seconds := 3600
    batch_size := some 10000 }

/-- Embeds `_define_collection_rules`: the rule dict in insertion order (Python dicts
iterate in insertion order). -/
def collection_rules : List (String × CollectionRule) :=
  [("purchase", purchase_rule),
   ("inquiry", inquiry_rule),
   ("engagement", engagement_rule),
   ("comparison", comparison_rule),
   ("navigation", navigation_rule),
   ("session", session_rule),
   ("analytics", analytics_rule)]

/-- One pattern test inside `_match_collection_rule`: a pattern ending in `*`
matches by prefix (`event_type.startswith(pattern[:-1])`), otherwise by
equality. -/
def pattern_matches (pattern event_type : String) : Bool :=
  if strEndsWithChar pattern '*' then
    strStartsWith event_type (strDropLast pattern)
  else pattern == event_type

/-- Embeds `_match_collection_rule`: linear scan over the rules in insertion order,
first rule with a matching pattern wins. -/
def match_collection_rule (event_type : String) : Option (String × CollectionRule) :=
  collection_rules.findSome? fun nr =>
    if nr.2.event_patterns.any (fun p => pattern_matches p event_type) then some nr
    else none

/-- The `base_values` dict of `_calculate_conversion_value`; `.get` with
default `1.0` — every priority is present, so the default is never taken. -/
def conversion_base_value : BehaviorPriority → ℚ
  | .critical => 100
  | .high => 20
  | .medium => 5
  | .low => 1
  | .background => 1 / 10

/-- Embeds `_calculate_conversion_value`: tier base value times context multipliers
(`×1.5` repeat visitor, `×2.0` premium user, `×1.3` duration over 300 s). -/
def calculate_conversion_value (event_data : EventData) (rule : CollectionRule) : ℚ :=
  let base_value := conversion_base_value rule.priority
  let multiplier : ℚ := 1
  let multiplier := if event_data.repeat_visitor then multiplier * (3 / 2) else multiplier
  let multiplier := if event_data.premium_user then multiplier * 2 else multiplier
  let multiplier :=
    if event_data.duration_seconds.getD 0 > 300 then multiplier * (13 / 10) else multiplier
  base_value * multiplier

/-- The `priority_scores` dict of `_calculate_lead_score`; `.get` with default
`1` — every priority is present, so the default is never taken. -/
def priority_score : BehaviorPriority → ℚ
  | .critical => 50
  | .high => 20
  | .medium => 10
  | .low => 5
  | .background => 1

/-- Embeds `_calculate_lead_score`: tier base score, then one keyword bonus chosen by
an `if`/`elif` chain (`purchase` +100, else `inquiry` +50, else `compare` +15),
then one duration bonus chosen by an `if`/`elif` chain (+20 over 600 s, else
+10 over 300 s, else +5 over 60 s), capped at 100 by `min(score, 100.0)`. -/
def calculate_lead_score (event_data : EventData) (rule : CollectionRule) : ℚ :=
  let score : ℚ := 0
  let score := score + priority_score rule.priority
  let et := event_data.event_type.getD ""
  let score :=
    if strContains et "purchase" then score + 100
    else if strContains et "inquiry" then score + 50
    else if strContains et "compare" then score + 15
    else score
  let duration := event_data.duration_seconds.getD 0
  let score :=
    if duration > 600 then score + 20
    else if duration > 300 then score + 10
    else if duration > 60 then score + 5
    else score
  min score 100

/-- Embeds `_classify_event`: look up the collection rule for
`event_data.get('event_type', 'unknown')`; with no matching rule return
`None`; `event_data['user_id']` raising `KeyError` is caught by the method's
`except`, which also returns `None`.  The produced `BehaviorEvent` is stamped
with `timestamp=datetime.now()` (the `now` argument); the payload's own
`timestamp` field is never read. -/
def classify_event (event_data : EventData) (now : Int) : Option BehaviorEvent :=
  let event_type := event_data.event_type.getD "unknown"
  match match_collection_rule event_type with
  | none => none
  | some nr =>
    match event_data.user_id with
    | none => none
    | some uid =>
      some
        { user_id := uid
          event_type := event_type
          timestamp := now
          priority := nr.2.priority
          collection_method := nr.2.collection_method
          vehicle_id := event_data.vehicle_id
          session_id := event_data.session_id
          page_path := event_data.page_path
          referrer := event_data.referrer
          duration_seconds := event_data.duration_seconds
          scroll_depth := event_data.scroll_depth
          click_count := event_data.click_count
          device_type := event_data.device_type
          browser := event_data.browser
          location := event_data.location
          conversion_value := calculate_conversion_value event_data nr.2
          lead_score := calculate_lead_score event_data nr.2
          raw_data := some event_data }

/-- Embeds `_is_valid_user_id`: rejects empty or shorter-than-3 ids and ids starting
with one of the reserved test prefixes. -/
def is_valid_user_id (user_id : String) : Bool :=
  if user_id == "" || strLen user_id < 3 then false
  else if ["test_", "demo_", "admin_", "system_"].any
      (fun p => strStartsWith user_id p) then false
  else true

/-- Embeds `_is_duplicate_event`: the source computes an MD5 hash of
`(user_id, event_type, timestamp to the second)` but then — per its own
comment, a simplified stand-in for a Redis or in-memory cache — unconditionally
returns `False`. -/
def is_duplicate_event (_event : BehaviorEvent) : Bool := false

/-- Embeds `_validate_event_quality`: required fields, timestamp window
(`now + 5 min` … `now − 1 day`), user-id format, duplicate check.  `now` is
the `datetime.now()` read inside the method. -/
def validate_event_quality (event : BehaviorEvent) (now : Int) : Bool :=
  if event.user_id == "" || event.event_type == "" then false
  else if event.timestamp > now + 300 then false
  else if event.timestamp < now - 86400 then false
  else if !is_valid_user_id event.user_id then false
  else if is_duplicate_event event then false
  else true

/-- The mutable state of `UserBehaviorCollectionStrategy` that
`collect_behavior` touches: the five tier queues and the two counters. -/
structure StrategyState where
  critical_queue : List BehaviorEvent := []
  high_priority_queue : List BehaviorEvent := []
  medium_priority_queue : List BehaviorEvent := []
  low_priority_queue : List BehaviorEvent := []
  background_queue : List BehaviorEvent := []
  events_processed : Nat := 0
  processing_errors : Nat := 0

/-- Embeds `_enqueue_event`: push the event onto the queue of its priority tier
(`asyncio.Queue.put`, FIFO). -/
def enqueue_event (event : BehaviorEvent) (s : StrategyState) : StrategyState :=
  match event.priority with
  | .critical => { s with critical_queue := s.critical_queue ++ [event] }
  | .high => { s with high_priority_queue := s.high_priority_queue ++ [event] }
  | .medium => { s with medium_priority_queue := s.medium_priority_queue ++ [event] }
  | .low => { s with low_priority_queue := s.low_priority_queue ++ [event] }
  | .background => { s with background_queue := s.background_queue ++ [event] }

/-- The queue of a given tier, for stating properties of `enqueue_event`. -/
def tier_queue : BehaviorPriority → StrategyState → List BehaviorEvent
  | .critical, s => s.critical_queue
  | .high, s => s.high_priority_queue
  | .medium, s => s.medium_priority_queue
  | .low, s => s.low_priority_queue
  | .background, s => s.background_queue

/-- Embeds `collect_behavior`: classify, validate, enqueue, bump
`events_processed`, then — only when the event carries a session id — call
`self._update_session_tracking(behavior_event)`.  That method is defined
nowhere on the class, so the call raises `AttributeError`; the method-level
`except` catches it, bumps `processing_errors` and returns `False`, with the
enqueue and the `events_processed` increment already performed. -/
def collect_behavior (event_data : EventData) (now : Int) (s : StrategyState) :
    Bool × StrategyState :=
  match classify_event event_data now with
  | none => (false, s)
  | some behavior_event =>
    if !validate_event_quality behavior_event now then (false, s)
    else
      let s1 := enqueue_event behavior_event s
      let s2 := { s1 with events_processed := s1.events_processed + 1 }
      match behavior_event.session_id with
      | none => (true, s2)
      | some _ => (false, { s2 with processing_errors := s2.processing_errors + 1 })

/-- The persistence-side state that `_batch_insert_events` can touch: the
rows of the `user_interactions` table, plus a dead-letter store (the source
has none; the field stays empty and lets the spec's dead-letter claim be
stated). -/
structure PersistState where
  db_rows : List BehaviorEvent := []
  dead_letter : List BehaviorEvent := []

/-- Embeds `_batch_insert_events`: an empty batch returns immediately;
otherwise one `executemany` call inserts every event of the batch.
`persist_ok` models whether that single call succeeds.  On failure the
method's `except` catches the exception and only logs it: there is no retry,
nothing is re-queued and nothing is written anywhere else. -/
def batch_insert_events (events : List BehaviorEvent) (persist_ok : Bool)
    (ps : PersistState) : PersistState :=
  if events.isEmpty then ps
  else if persist_ok then { ps with db_rows := ps.db_rows ++ events }
  else ps

/-- The loop state of one batch-tier processor (`_high_priority_processor`,
`_medium_priority_processor`, `_low_priority_processor`): its queue and the
number of seconds already slept since the last wake-up. -/
structure TierProcState where
  queue : List BehaviorEvent := []
  seconds_since_wake : Nat := 0

/-- One second of a batch-tier processor loop.  The source loop is
`while True: await asyncio.sleep(cadence); drain up to cap; process`, so a
flush happens exactly when the sleep counter reaches the cadence, and it
drains at most `cap` events (`for _ in range(cap): get_nowait()`).  `arrivals`
are the events enqueued during this second; the second component of the
result is the batch flushed during this second (`[]` when none). -/
def tier_processor_tick (cadence cap : Nat) (arrivals : List BehaviorEvent)
    (s : TierProcState) : TierProcState × List BehaviorEvent :=
  let q := s.queue ++ arrivals
  if cadence ≤ s.seconds_since_wake + 1 then
    ({ queue := q.drop cap, seconds_since_wake := 0 }, q.take cap)
  else
    ({ queue := q, seconds_since_wake := s.seconds_since_wake + 1 }, [])

/-- Runs `n` seconds of a batch-tier processor with no new arrivals,
collecting the batch flushed in each second. -/
def tier_processor_run (cadence cap : Nat) (s : TierProcState) :
    Nat → TierProcState × List (List BehaviorEvent)
  | 0 => (s, [])
  | n + 1 =>
    let step := tier_processor_tick cadence cap [] s
    let rest := tier_processor_run cadence cap step.1 n
    (rest.1, step.2 :: rest.2)

/-- The flush-trigger condition exactly as claim C7 states it: a flush is
triggered at the earlier of the cadence boundary and the batch-size cap being
reached by the queue.  Stated from the claim's words, to be compared with
`tier_processor_tick`, which flushes only on the cadence boundary. -/
def claimed_flush_trigger (cadence cap seconds_since_wake queue_len : Nat) : Bool :=
  cadence ≤ seconds_since_wake + 1 || cap ≤ queue_len

/-- The lead score exactly as claim C4 states it: tier base plus keyword
contributions that are each additive and independent (+100 `purchase`,
+50 `inquiry`, +15 `compare`), plus duration bonuses (+20 over 600 s, +10
over 300 s, +5 over 60 s), clamped to `[0, 100]`.  Stated from the claim's
words, to be compared with `calculate_lead_score`. -/
def claimed_lead_score (event_data : EventData) (rule : CollectionRule) : ℚ :=
  let et := event_data.event_type.getD ""
  let duration := event_data.duration_seconds.getD 0
  let score := priority_score rule.priority
    + (if strContains et "purchase" then 100 else 0)
    + (if strContains et "inquiry" then 50 else 0)
    + (if strContains et "compare" then 15 else 0)
    + (if duration > 600 then 20 else 0)
    + (if duration > 300 then 10 else 0)
    + (if duration > 60 then 5 else 0)
  max 0 (min score 100)

/-- The lead score as amended: identical to claim C4 except that the keyword
bonuses are mutually exclusive, decided by a first-match chain in the order
`purchase`, `inquiry`, `compare`, and the duration bonuses are likewise
mutually exclusive, decided in the order over-600, over-300, over-60. -/
def amended_lead_score (event_data : EventData) (rule : CollectionRule) : ℚ :=
  let et := event_data.event_type.getD ""
  let duration := event_data.duration_seconds.getD 0
  let score := priority_score rule.priority
    + (if strContains et "purchase" then 100
       else if strContains et "inquiry" then 50
       else if strContains et "compare" then 15
       else 0)
    + (if duration > 600 then 20
       else if duration > 300 then 10
       else if duration > 60 then 5
       else 0)
  max 0 (min score 100)

/-- Product form of the context multiplier of `_calculate_conversion_value`,
for the monotonicity proofs. -/
def conversion_multiplier (event_data : EventData) : ℚ :=
  (if event_data.repeat_visitor then (3 : ℚ) / 2 else 1) *
    (if event_data.premium_user then 2 else 1) *
    (if event_data.duration_seconds.getD 0 > 300 then 13 / 10 else 1)

/-- A cached entry of the `local_cache` dict of
`RealtimeRecommendationCache`: the stored list and the write time. -/
structure LocalCacheEntry (α : Type) where
  recommendations : List α
  timestamp : Int
  deriving DecidableEq

/-- A Redis entry written by `setex(key, ttl, value)`: the stored list and
the absolute expiry time `write time + ttl`; `GET` returns the value only
strictly before the expiry time. -/
structure RedisEntry (α : Type) where
  value : List α
  expires_at : Int
  deriving DecidableEq

/-- The state of a `RealtimeRecommendationCache` instance: whether a Redis
client was configured, the Redis key space, and the `local_cache` dict.
Dict assignment is modelled by consing the new binding in front; `lookup`
returns the most recent binding, matching dict reads.  `α` is the type of
one recommendation item (an opaque JSON object in the source; the
`json.dumps`/`json.loads` round trip is modelled as the identity). -/
structure RecCacheState (α : Type) where
  redis_configured : Bool := false
  redis_store : List (String × RedisEntry α) := []
  local_cache : List (String × LocalCacheEntry α) := []

/-- The `cache_ttl` attribute: 300 seconds. -/
def cache_ttl : Int := 300

/-- Embeds `RealtimeRecommendationCache.get_user_recommendations`: when a
Redis client is configured and holds a live value for
`recommendations:{user_id}`, return it; otherwise fall through to the
`local_cache` dict, returning its entry only while
`now - entry.timestamp < cache_ttl`; in every other case return `[]`. -/
def get_user_recommendations {α : Type} (now : Int) (user_id : String)
    (c : RecCacheState α) : List α :=
  let cache_key := "recommendations:" ++ user_id
  let from_redis : Option (List α) :=
    if c.redis_configured then
      match c.redis_store.lookup cache_key with
      | some entry => if now < entry.expires_at then some entry.value else none
      | none => none
    else none
  match from_redis with
  | some v => v
  | none =>
    match c.local_cache.lookup user_id with
    | some entry =>
      if now - entry.timestamp < cache_ttl then entry.recommendations else []
    | none => []

/-- Embeds `RealtimeRecommendationCache.update_user_recommendations`: write
to Redis with `setex(cache_key, cache_ttl, …)` when a client is configured,
and always write `{recommendations, timestamp: now}` to the `local_cache`
dict. -/
def update_user_recommendations {α : Type} (now : Int) (user_id : String)
    (recommendations : List α) (c : RecCacheState α) : RecCacheState α :=
  let cache_key := "recommendations:" ++ user_id
  { c with
    redis_store :=
      if c.redis_configured then
        (cache_key, ⟨recommendations, now + cache_ttl⟩) :: c.redis_store
      else c.redis_store
    local_cache := (user_id, ⟨recommendations, now⟩) :: c.local_cache }

/-- Sum of the keyword bonus and the duration bonus of
`_calculate_lead_score`, split out of the accumulating `score` variable for
the monotonicity proofs; it does not depend on the rule. -/
def lead_bonus (d : EventData) : ℚ :=
  (if strContains (d.event_type.getD "") "purchase" then 100
   else if strContains (d.event_type.getD "") "inquiry" then 50
   else if strContains (d.event_type.getD "") "compare" then 15
   else 0) +
  (if d.duration_seconds.getD 0 > 600 then 20
   else if d.duration_seconds.getD 0 > 300 then 10
   else if d.duration_seconds.getD 0 > 60 then 5
   else 0)

/-- A valid `page_view` payload with a session id, for claim C1. -/
def c1_session_payload : EventData :=
  { user_id := some "user_101", event_type := some "page_view",
    session_id := some "sess_42" }

/-- The event `_classify_event` builds from `c1_session_payload` at time 0. -/
def c1_session_event : BehaviorEvent :=
  { user_id := "user_101", event_type := "page_view", timestamp := 0,
    priority := .medium, collection_method := .batch_regular,
    session_id := some "sess_42",
    conversion_value := calculate_conversion_value c1_session_payload navigation_rule,
    lead_score := calculate_lead_score c1_session_payload navigation_rule,
    raw_data := some c1_session_payload }

/-- A valid `page_view` payload without a session id, for claim C1. -/
def c1_payload : EventData :=
  { user_id := some "user_111", event_type := some "page_view" }

/-- The event `_classify_event` builds from `c1_payload` at time 0. -/
def c1_event : BehaviorEvent :=
  { user_id := "user_111", event_type := "page_view", timestamp := 0,
    priority := .medium, collection_method := .batch_regular,
    conversion_value := calculate_conversion_value c1_payload navigation_rule,
    lead_score := calculate_lead_score c1_payload navigation_rule,
    raw_data := some c1_payload }

/-- A valid `page_view` payload, submitted twice back to back for claim C2. -/
def c2_payload : EventData :=
  { user_id := some "user_222", event_type := some "page_view" }

/-- The event `_classify_event` builds from `c2_payload` at time 0; both
submissions produce this same event (same user id, event type and stamped
timestamp). -/
def c2_event : BehaviorEvent :=
  { user_id := "user_222", event_type := "page_view", timestamp := 0,
    priority := .medium, collection_method := .batch_regular,
    conversion_value := calculate_conversion_value c2_payload navigation_rule,
    lead_score := calculate_lead_score c2_payload navigation_rule,
    raw_data := some c2_payload }

/-- A `page_view` payload whose own timestamp field lies 600 seconds after
the submission time `1000000000`, for claim C3. -/
def c3_payload : EventData :=
  { user_id := some "user_333", event_type := some "page_view",
    timestamp := some 1000000600 }

/-- A classified event whose stamped timestamp (1000 s) lies more than five
minutes after the validation time 0, for the claim C3 witness. -/
def c3_future_event : BehaviorEvent :=
  { user_id := "user_333", event_type := "page_view", timestamp := 1000,
    priority := .medium, collection_method := .batch_regular }

/-- An event payload whose type contains both `inquiry` and `compare`, for
claim C4; it matches the `comparison` rule (`compare_*`). -/
def c4_payload_a : EventData :=
  { user_id := some "user_444", event_type := some "compare_inquiry" }

/-- A `page_view` payload with a duration of 700 seconds, exceeding all
three duration thresholds at once, for claim C4. -/
def c4_payload_b : EventData :=
  { user_id := some "user_445", event_type := some "page_view",
    duration_seconds := some 700 }

/-- An event in a batch whose persistence call fails, for claim C5. -/
def c5_event : BehaviorEvent :=
  { user_id := "user_555", event_type := "like", timestamp := 0,
    priority := .high, collection_method := .batch_fast }

/-- A fixed payload context (400 s duration, premium user), for the claim C6
witness. -/
def c6_payload : EventData :=
  { user_id := some "user_666", event_type := some "page_view",
    duration_seconds := some 400, premium_user := true }

/-- An event of the High tier, for claim C7. -/
def c7_event : BehaviorEvent :=
  { user_id := "user_777", event_type := "like", timestamp := 0,
    priority := .high, collection_method := .batch_fast }

/-- A High-tier processor state whose queue already holds exactly the
batch-size cap of 100 events, just after a wake-up (0 s slept). -/
def c7_full_queue : TierProcState :=
  { queue := List.replicate 100 c7_event }

/-- A High-tier processor state one second before the 60-second cadence
boundary, for the claim C7 witness. -/
def c7_near_wake : TierProcState :=
  { queue := [c7_event], seconds_since_wake := 59 }

/-- A valid `page_view` payload carrying a session id, for claim C9. -/
def c9_payload : EventData :=
  { user_id := some "user_999", event_type := some "page_view",
    session_id := some "sess_9" }

/-- The event `_classify_event` builds from `c9_payload` at time 0. -/
def c9_event : BehaviorEvent :=
  { user_id := "user_999", event_type := "page_view", timestamp := 0,
    priority := .medium, collection_method := .batch_regular,
    session_id := some "sess_9",
    conversion_value := calculate_conversion_value c9_payload navigation_rule,
    lead_score := calculate_lead_score c9_payload navigation_rule,
    raw_data := some c9_payload }

/-! ## Helper lemmas -/

/-- The tier base of the conversion value is non-increasing in the priority
enum value. -/
theorem conversion_base_antitone {p q : BehaviorPriority} (h : p.value ≤ q.value) :
    conversion_base_value q ≤ conversion_base_value p := by
  cases p <;> cases q <;> simp_all [BehaviorPriority.value, conversion_base_value] <;> norm_num

/-- The tier base of the lead score is non-increasing in the priority enum
value. -/
theorem priority_score_antitone {p q : BehaviorPriority} (h : p.value ≤ q.value) :
    priority_score q ≤ priority_score p := by
  cases p <;> cases q <;> simp_all [BehaviorPriority.value, priority_score] <;> norm_num

/-- The tier base of the lead score is nonnegative. -/
theorem priority_score_nonneg (p : BehaviorPriority) : 0 ≤ priority_score p := by
  cases p <;> norm_num [priority_score]

/-- The conversion value factors as tier base times context multiplier. -/
theorem conversion_value_eq (d : EventData) (r : CollectionRule) :
    calculate_conversion_value d r =
      conversion_base_value r.priority * conversion_multiplier d := by
  simp only [calculate_conversion_value, conversion_multiplier]
  split_ifs <;> ring

/-- The context multiplier of the conversion value is positive. -/
theorem conversion_multiplier_pos (d : EventData) : 0 < conversion_multiplier d := by
  simp only [conversion_multiplier]
  split_ifs <;> norm_num

/-- The lead score is the capped sum of the tier base and the rule-independent
bonuses. -/
theorem lead_score_eq (d : EventData) (r : CollectionRule) :
    calculate_lead_score d r = min (priority_score r.priority + lead_bonus d) 100 := by
  simp only [calculate_lead_score, lead_bonus]
  split_ifs <;> congr 1 <;> ring

/-- The keyword and duration bonuses of the lead score are nonnegative. -/
theorem lead_bonus_nonneg (d : EventData) : 0 ≤ lead_bonus d := by
  simp only [lead_bonus]
  split_ifs <;> norm_num

/-- Enqueueing does not change the processed-events counter. -/
theorem enqueue_event_events_processed (e : BehaviorEvent) (s : StrategyState) :
    (enqueue_event e s).events_processed = s.events_processed := by
  cases h : e.priority <;> simp [enqueue_event, h]

/-- Enqueueing does not change the error counter. -/
theorem enqueue_event_processing_errors (e : BehaviorEvent) (s : StrategyState) :
    (enqueue_event e s).processing_errors = s.processing_errors := by
  cases h : e.priority <;> simp [enqueue_event, h]

/-- Enqueueing appends the event to the queue of its own tier. -/
theorem tier_queue_enqueue (e : BehaviorEvent) (s : StrategyState) :
    tier_queue e.priority (enqueue_event e s) = tier_queue e.priority s ++ [e] := by
  cases h : e.priority <;> simp [enqueue_event, tier_queue, h]

/-- Updating the processed-events counter leaves every tier queue unchanged. -/
theorem tier_queue_set_processed (p : BehaviorPriority) (s : StrategyState) (n : Nat) :
    tier_queue p { s with events_processed := n } = tier_queue p s := by
  cases p <;> rfl

/-- Updating the error counter leaves every tier queue unchanged. -/
theorem tier_queue_set_errors (p : BehaviorPriority) (s : StrategyState) (n : Nat) :
    tier_queue p { s with processing_errors := n } = tier_queue p s := by
  cases p <;> rfl

/-- A cache get finds nothing when neither store holds an entry for the
user. -/
theorem cache_get_unset {α : Type} (c : RecCacheState α) (uid : String) (now : Int)
    (hl : c.local_cache.lookup uid = none)
    (hr : c.redis_store.lookup ("recommendations:" ++ uid) = none) :
    get_user_recommendations now uid c = [] := by
  cases hc : c.redis_configured <;>
    simp [get_user_recommendations, hc, hl, hr]

/-- A cache get after a set returns the set items while the TTL has not
elapsed, whether or not Redis is configured. -/
theorem cache_get_within_ttl {α : Type} (c : RecCacheState α) (uid : String)
    (items : List α) (t_set t_get : Int) (h : t_get - t_set < cache_ttl) :
    get_user_recommendations t_get uid
      (update_user_recommendations t_set uid items c) = items := by
  have h' : t_get - t_set < 300 := by simpa [cache_ttl] using h
  have h1 : t_get < t_set + 300 := by omega
  cases hc : c.redis_configured <;>
    simp [get_user_recommendations, update_user_recommendations, hc, List.lookup,
      cache_ttl, h1, h']

/-- A cache get after a set returns nothing once the TTL has elapsed, whether
or not Redis is configured. -/
theorem cache_get_after_ttl {α : Type} (c : RecCacheState α) (uid : String)
    (items : List α) (t_set t_get : Int) (h : cache_ttl ≤ t_get - t_set) :
    get_user_recommendations t_get uid
      (update_user_recommendations t_set uid items c) = [] := by
  have h' : (300 : Int) ≤ t_get - t_set := by simpa [cache_ttl] using h
  have h1 : ¬ t_get < t_set + 300 := by omega
  have h2 : ¬ t_get - t_set < 300 := by omega
  cases hc : c.redis_configured <;>
    simp [get_user_recommendations, update_user_recommendations, hc, List.lookup,
      cache_ttl, h1, h2]

/-- A cache set always writes the new entry to the local fallback dict, and
also to Redis whenever a client is configured. -/
theorem cache_set_writes {α : Type} (c : RecCacheState α) (uid : String)
    (items : List α) (now : Int) :
    (update_user_recommendations now uid items c).local_cache.lookup uid =
      some ⟨items, now⟩ ∧
    (c.redis_configured = true →
      (update_user_recommendations now uid items c).redis_store.lookup
        ("recommendations:" ++ uid) = some ⟨items, now + cache_ttl⟩) := by
  constructor
  · simp [update_user_recommendations, List.lookup]
  · intro hc
    simp [update_user_recommendations, hc, List.lookup]

/-- A validation-time rejection of any event whose stamped timestamp is out
of the allowed window. -/
theorem validate_rejects_out_of_range (e : BehaviorEvent) (now : Int)
    (h : now + 300 < e.timestamp ∨ e.timestamp < now - 86400) :
    validate_event_quality e now = false := by
  simp only [validate_event_quality]
  rcases h with h | h
  · split_ifs <;> rfl
  · split_ifs <;> rfl

/-- The accept/reject result of `collect_behavior` does not depend on the
payload's own timestamp field, which `_classify_event` never reads. -/
theorem collect_behavior_ignores_payload_timestamp (d : EventData) (t : Option Int)
    (now : Int) (s : StrategyState) :
    (collect_behavior { d with timestamp := t } now s).1 =
      (collect_behavior d now s).1 := by
  simp only [collect_behavior, classify_event]
  cases hm : match_collection_rule (d.event_type.getD "unknown") with
  | none => rfl
  | some nr =>
    cases hu : d.user_id with
    | none => rfl
    | some uid =>
      simp only [validate_event_quality, is_valid_user_id, is_duplicate_event]
      cases d.session_id <;> split_ifs <;> rfl

/-! ## Claim C1 -/

/-- Claim C1, counterexample: the payload `c1_session_payload` passes
classification and quality validation and carries a session id, yet
`collect_behavior` returns `False` (the session-tracking call raises), so the
claim's "returns True … including those carrying a session id" is false. -/
theorem C1_counterexample :
    classify_event c1_session_payload 0 = some c1_session_event ∧
    validate_event_quality c1_session_event 0 = true ∧
    c1_session_event.session_id = some "sess_42" ∧
    (collect_behavior c1_session_payload 0 {}).1 = false :=
  ⟨rfl, by decide, rfl, rfl⟩

/-- Claim C1 as amended: for every event payload that passes classification
and quality validation and carries no session id, `collect_behavior` returns
`True` and the `events_processed` counter increments by exactly one. -/
theorem C1_collect_accepts_valid (d : EventData) (now : Int) (s : StrategyState)
    (e : BehaviorEvent)
    (hc : classify_event d now = some e) (hv : validate_event_quality e now = true)
    (hs : e.session_id = none) :
    (collect_behavior d now s).1 = true ∧
    (collect_behavior d now s).2.events_processed = s.events_processed + 1 := by
  simp [collect_behavior, hc, hv, hs, enqueue_event_events_processed]

/-- Claim C1, witness: the amended theorem applied to the concrete payload
`c1_payload` on the empty strategy state. -/
theorem C1_witness :
    (collect_behavior c1_payload 0 {}).1 = true ∧
    (collect_behavior c1_payload 0 ({} : StrategyState)).2.events_processed =
      ({} : StrategyState).events_processed + 1 :=
  C1_collect_accepts_valid c1_payload 0 {} c1_event rfl (by decide) rfl

/-! ## Claim C2 -/

/-- Claim C2, counterexample: the same valid payload submitted twice back to
back at the same clock time (identical user id, event type and stamped
timestamp) is accepted both times — the second submission is not rejected as
a duplicate, because `_is_duplicate_event` always reports non-duplicate. -/
theorem C2_counterexample :
    classify_event c2_payload 0 = some c2_event ∧
    (collect_behavior c2_payload 0 {}).1 = true ∧
    (collect_behavior c2_payload 0 ((collect_behavior c2_payload 0 {}).2)).1 = true :=
  ⟨rfl, rfl, rfl⟩

/-- Claim C2 as amended: for every pair of identical submissions of a valid
session-free payload, the duplicate check reports non-duplicate and both the
first and the second submission are accepted. -/
theorem C2_duplicate_accepted_twice (d : EventData) (now : Int) (s : StrategyState)
    (e : BehaviorEvent)
    (hc : classify_event d now = some e) (hv : validate_event_quality e now = true)
    (hs : e.session_id = none) :
    is_duplicate_event e = false ∧
    (collect_behavior d now s).1 = true ∧
    (collect_behavior d now ((collect_behavior d now s).2)).1 = true := by
  refine ⟨rfl, ?_, ?_⟩ <;> simp [collect_behavior, hc, hv, hs]

/-- Claim C2, witness: the amended theorem applied to the concrete payload
`c2_payload` submitted twice from the empty strategy state. -/
theorem C2_witness :
    is_duplicate_event c2_event = false ∧
    (collect_behavior c2_payload 0 {}).1 = true ∧
    (collect_behavior c2_payload 0
      ((collect_behavior c2_payload 0 ({} : StrategyState)).2)).1 = true :=
  C2_duplicate_accepted_twice c2_payload 0 {} c2_event rfl (by decide) rfl

/-! ## Claim C3 -/

/-- Claim C3, counterexample: a payload whose own timestamp field is 600
seconds (more than 5 minutes) after the submission time `1000000000` is
nevertheless accepted, because `_classify_event` stamps the event with
`datetime.now()` and never reads the payload's timestamp. -/
theorem C3_counterexample :
    c3_payload.timestamp = some 1000000600 ∧
    (1000000000 : Int) + 300 < 1000000600 ∧
    (collect_behavior c3_payload 1000000000 {}).1 = true :=
  ⟨rfl, by decide, rfl⟩

/-- Claim C3 as amended: quality validation rejects any event whose stamped
timestamp is more than 5 minutes in the future or more than 1 day in the
past; but the accept/reject result of `collect_behavior` never depends on the
payload's own timestamp field, because classification stamps events with the
current time. -/
theorem C3_timestamp_window :
    (∀ (e : BehaviorEvent) (now : Int),
      now + 300 < e.timestamp ∨ e.timestamp < now - 86400 →
      validate_event_quality e now = false) ∧
    (∀ (d : EventData) (t : Option Int) (now : Int) (s : StrategyState),
      (collect_behavior { d with timestamp := t } now s).1 =
        (collect_behavior d now s).1) :=
  ⟨validate_rejects_out_of_range, collect_behavior_ignores_payload_timestamp⟩

/-- Claim C3, witness: the amended theorem applied to a concrete event whose
stamped timestamp 1000 lies more than 5 minutes after the time 0, and to the
concrete payload `c3_payload`. -/
theorem C3_witness :
    validate_event_quality c3_future_event 0 = false ∧
    (collect_behavior { c3_payload with timestamp := some 0 } 1000000000 {}).1 =
      (collect_behavior c3_payload 1000000000 {}).1 :=
  ⟨C3_timestamp_window.1 c3_future_event 0 (Or.inl (by decide)),
   C3_timestamp_window.2 c3_payload (some 0) 1000000000 {}⟩

/-! ## Claim C4 -/

/-- Claim C4, counterexample: the keyword contributions are not additive and
independent.  For `compare_inquiry` (matched by the `comparison` rule, High
tier base 20) the code scores `20 + 50 = 70` (only the `inquiry` arm of the
`elif` chain fires) while the claim's additive formula gives `20 + 50 + 15 =
85`; for `page_view` with duration 700 s (Medium tier base 10) the code
scores `10 + 20 = 30` (only the over-600 arm fires) while the claim's
additive formula gives `10 + 20 + 10 + 5 = 45`. -/
theorem C4_counterexample :
    match_collection_rule "compare_inquiry" = some ("comparison", comparison_rule) ∧
    calculate_lead_score c4_payload_a comparison_rule = 70 ∧
    claimed_lead_score c4_payload_a comparison_rule = 85 ∧
    match_collection_rule "page_view" = some ("navigation", navigation_rule) ∧
    calculate_lead_score c4_payload_b navigation_rule = 30 ∧
    claimed_lead_score c4_payload_b navigation_rule = 45 := by
  refine ⟨rfl, ?_, ?_, rfl, ?_, ?_⟩ <;>
    norm_num [calculate_lead_score, claimed_lead_score, priority_score,
      comparison_rule, navigation_rule, c4_payload_a, c4_payload_b,
      show strContains "compare_inquiry" "purchase" = false from rfl,
      show strContains "compare_inquiry" "inquiry" = true from rfl,
      show strContains "compare_inquiry" "compare" = true from rfl,
      show strContains "page_view" "purchase" = false from rfl,
      show strContains "page_view" "inquiry" = false from rfl,
      show strContains "page_view" "compare" = false from rfl,
      min_def, max_def]

/-- Claim C4 as amended: for every event and rule, the lead score equals the
tier base (Critical 50, High 20, Medium 10, Low 5, Background 1) plus one
keyword bonus chosen by first match in the order `purchase` +100, `inquiry`
+50, `compare` +15, plus one duration bonus chosen in the order +20 if over
600 s, +10 if over 300 s, +5 if over 60 s, the result clamped to
`[0, 100]`; the score is always within `[0, 100]`. -/
theorem C4_lead_score_formula (d : EventData) (r : CollectionRule) :
    calculate_lead_score d r = amended_lead_score d r ∧
    0 ≤ calculate_lead_score d r ∧ calculate_lead_score d r ≤ 100 := by
  refine ⟨?_, ?_, ?_⟩
  · simp only [calculate_lead_score, amended_lead_score]
    split_ifs <;>
      (have hps := priority_score_nonneg r.priority
       rw [max_eq_right (le_min (by linarith) (by norm_num))]
       congr 1
       ring)
  · rw [lead_score_eq]
    exact le_min (add_nonneg (priority_score_nonneg r.priority) (lead_bonus_nonneg d))
      (by norm_num)
  · rw [lead_score_eq]
    exact min_le_right _ _

/-! ## Claim C5 -/

/-- Claim C5, counterexample: a nonempty batch whose persistence call fails
ends up neither in the database rows nor in any dead-letter store — the
exception is caught, logged and the batch silently discarded, with no retry
and no dead-letter spill. -/
theorem C5_counterexample :
    (batch_insert_events [c5_event] false {}).db_rows = [] ∧
    (batch_insert_events [c5_event] false {}).dead_letter = [] :=
  ⟨rfl, rfl⟩

/-- Claim C5 as amended: a successful flush hands the whole batch to the
persister in one call (no partial hand-off), while a failed flush leaves the
persistence state unchanged — the batch is dropped without retry and without
any dead-letter spill, the dead-letter store staying empty in every case. -/
theorem C5_flush_behavior (events : List BehaviorEvent) (ok : Bool) (ps : PersistState) :
    (batch_insert_events events true ps).db_rows = ps.db_rows ++ events ∧
    batch_insert_events events false ps = ps ∧
    (batch_insert_events events ok ps).dead_letter = ps.dead_letter := by
  refine ⟨?_, ?_, ?_⟩ <;> cases events <;> cases ok <;> simp [batch_insert_events]

/-! ## Claim C6 -/

/-- Claim C6: for a fixed event payload, the conversion value and the lead
score are monotonically non-increasing as the assigned tier moves from
Critical to High to Medium to Low to Background (priority enum value
increasing). -/
theorem C6_tier_monotonicity (d : EventData) (r1 r2 : CollectionRule)
    (h : r1.priority.value ≤ r2.priority.value) :
    calculate_conversion_value d r2 ≤ calculate_conversion_value d r1 ∧
    calculate_lead_score d r2 ≤ calculate_lead_score d r1 := by
  constructor
  · rw [conversion_value_eq, conversion_value_eq]
    exact mul_le_mul_of_nonneg_right (conversion_base_antitone h)
      (le_of_lt (conversion_multiplier_pos d))
  · rw [lead_score_eq, lead_score_eq]
    exact min_le_min (add_le_add_right (priority_score_antitone h) _) le_rfl

/-- Claim C6, witness: the theorem applied to the concrete payload
`c6_payload` with the Critical-tier purchase rule and the Low-tier session
rule. -/
theorem C6_witness :
    calculate_conversion_value c6_payload session_rule ≤
      calculate_conversion_value c6_payload purchase_rule ∧
    calculate_lead_score c6_payload session_rule ≤
      calculate_lead_score c6_payload purchase_rule :=
  C6_tier_monotonicity c6_payload purchase_rule session_rule (by decide)

/-! ## Claim C7 -/

/-- Claim C7, counterexample: a High-tier queue already holding its full
batch-size cap of 100 events right after a wake-up satisfies the claimed
flush trigger immediately, yet during all of the following 59 seconds the
processor flushes nothing — the cap being reached does not cause a flush
before the 60-second cadence boundary (a flush does occur within 60
seconds, at the boundary). -/
theorem C7_counterexample :
    claimed_flush_trigger 60 100 0 c7_full_queue.queue.length = true ∧
    ((tier_processor_run 60 100 c7_full_queue 59).2.all List.isEmpty) = true ∧
    ((tier_processor_run 60 100 c7_full_queue 60).2.all List.isEmpty) = false := by
  refine ⟨by decide, by decide, by decide⟩

/-- Claim C7 as amended: a batch-tier flush occurs only when the cadence
boundary is reached; the batch-size cap does not trigger an early flush and
only bounds how many events one flush drains — at the boundary the processor
flushes exactly the first `cap` queued events and keeps the rest. -/
theorem C7_flush_on_cadence (cadence cap : Nat) (arrivals : List BehaviorEvent)
    (s : TierProcState) :
    ((tier_processor_tick cadence cap arrivals s).2 ≠ [] →
      cadence ≤ s.seconds_since_wake + 1) ∧
    (tier_processor_tick cadence cap arrivals s).2.length ≤ cap ∧
    (cadence ≤ s.seconds_since_wake + 1 →
      (tier_processor_tick cadence cap arrivals s).2 = (s.queue ++ arrivals).take cap ∧
      (tier_processor_tick cadence cap arrivals s).1.queue =
        (s.queue ++ arrivals).drop cap) := by
  simp only [tier_processor_tick]
  split_ifs with h
  · exact ⟨fun _ => h, by simp [List.length_take_le], fun _ => ⟨rfl, rfl⟩⟩
  · exact ⟨fun hne => absurd rfl hne, by simp, fun hc => absurd hc h⟩

/-- Claim C7, witness: the amended theorem applied one second before the
cadence boundary of the concrete state `c7_near_wake`: the tick flushes the
whole one-event queue and its flush stays within the cap. -/
theorem C7_witness :
    (tier_processor_tick 60 100 [] c7_near_wake).2 =
      (c7_near_wake.queue ++ []).take 100 ∧
    (tier_processor_tick 60 100 [] c7_near_wake).2.length ≤ 100 :=
  ⟨((C7_flush_on_cadence 60 100 [] c7_near_wake).2.2 (by decide)).1,
   (C7_flush_on_cadence 60 100 [] c7_near_wake).2.1⟩

/-! ## Claim C8 -/

/-- Claim C8: a cache get on a user with no entry returns absent (the empty
list) without recomputing; after a set, a get within the TTL returns exactly
the set items; after the TTL elapses, a get returns absent again; and a set
always writes to the local fallback dict, and also to the shared Redis cache
whenever one is configured. -/
theorem C8_cache_contract {α : Type} :
    (∀ (c : RecCacheState α) (uid : String) (now : Int),
      c.local_cache.lookup uid = none →
      c.redis_store.lookup ("recommendations:" ++ uid) = none →
      get_user_recommendations now uid c = []) ∧
    (∀ (c : RecCacheState α) (uid : String) (items : List α) (t_set t_get : Int),
      t_get - t_set < cache_ttl →
      get_user_recommendations t_get uid
        (update_user_recommendations t_set uid items c) = items) ∧
    (∀ (c : RecCacheState α) (uid : String) (items : List α) (t_set t_get : Int),
      cache_ttl ≤ t_get - t_set →
      get_user_recommendations t_get uid
        (update_user_recommendations t_set uid items c) = []) ∧
    (∀ (c : RecCacheState α) (uid : String) (items : List α) (now : Int),
      (update_user_recommendations now uid items c).local_cache.lookup uid =
        some ⟨items, now⟩ ∧
      (c.redis_configured = true →
        (update_user_recommendations now uid items c).redis_store.lookup
          ("recommendations:" ++ uid) = some ⟨items, now + cache_ttl⟩)) :=
  ⟨cache_get_unset, cache_get_within_ttl, cache_get_after_ttl, cache_set_writes⟩

/-- Claim C8, witness: the theorem applied to the empty cache with no Redis
client (the configuration the repository's singleton constructs): a get on an
unset user is absent; after a set at time 0, a get at time 299 returns the
set items, a get at time 300 is absent again, and the entry sits in the local
fallback dict. -/
theorem C8_witness :
    get_user_recommendations 0 "u1" ({} : RecCacheState Nat) = [] ∧
    get_user_recommendations 299 "u1"
      (update_user_recommendations 0 "u1" [7, 3] ({} : RecCacheState Nat)) = [7, 3] ∧
    get_user_recommendations 300 "u1"
      (update_user_recommendations 0 "u1" [7, 3] ({} : RecCacheState Nat)) = [] ∧
    (update_user_recommendations 0 "u1" [7, 3]
      ({} : RecCacheState Nat)).local_cache.lookup "u1" = some ⟨[7, 3], 0⟩ :=
  ⟨C8_cache_contract.1 {} "u1" 0 rfl rfl,
   C8_cache_contract.2.1 {} "u1" [7, 3] 0 299 (by decide),
   C8_cache_contract.2.2.1 {} "u1" [7, 3] 0 300 (by decide),
   (C8_cache_contract.2.2.2 {} "u1" [7, 3] 0).1⟩

/-! ## Claim C9 -/

/-- Claim C9: for every payload that passes classification and validation and
carries a session id, `collect_behavior` returns `False` (the undefined
session-tracking method raises `AttributeError` after the enqueue) and
increments `processing_errors`, yet the event remains in its tier queue and
`events_processed` is also incremented — the failure return rolls back
neither the queue nor the counter. -/
theorem C9_no_rollback_on_session_failure (d : EventData) (now : Int)
    (s : StrategyState) (e : BehaviorEvent) (sid : String)
    (hc : classify_event d now = some e) (hv : validate_event_quality e now = true)
    (hs : e.session_id = some sid) :
    (collect_behavior d now s).1 = false ∧
    (collect_behavior d now s).2.processing_errors = s.processing_errors + 1 ∧
    (collect_behavior d now s).2.events_processed = s.events_processed + 1 ∧
    tier_queue e.priority (collect_behavior d now s).2 =
      tier_queue e.priority s ++ [e] := by
  refine ⟨?_, ?_, ?_, ?_⟩
  · simp [collect_behavior, hc, hv, hs]
  · simp [collect_behavior, hc, hv, hs, enqueue_event_processing_errors]
  · simp [collect_behavior, hc, hv, hs, enqueue_event_events_processed]
  · simp only [collect_behavior, hc, hv, hs, Bool.not_true]
    cases hp : e.priority <;> simp [tier_queue, enqueue_event, hp]

/-- Claim C9, witness: the theorem applied to the concrete session-carrying
payload `c9_payload` on the empty strategy state. -/
theorem C9_witness :
    (collect_behavior c9_payload 0 {}).1 = false ∧
    (collect_behavior c9_payload 0 ({} : StrategyState)).2.processing_errors =
      ({} : StrategyState).processing_errors + 1 ∧
    (collect_behavior c9_payload 0 ({} : StrategyState)).2.events_processed =
      ({} : StrategyState).events_processed + 1 ∧
    tier_queue c9_event.priority (collect_behavior c9_payload 0 ({} : StrategyState)).2 =
      tier_queue c9_event.priority ({} : StrategyState) ++ [c9_event] :=
  C9_no_rollback_on_session_failure c9_payload 0 {} c9_event "sess_9" rfl (by decide) rfl

/-! ## Claim C10 -/

/-- Claim C10: quality validation of the user id rejects every id shorter
than 3 characters, rejects every id starting with one of the reserved
prefixes `test_`, `demo_`, `admin_`, `system_`, and accepts every other
non-empty id. -/
theorem C10_user_id_validation (uid : String) :
    (strLen uid < 3 → is_valid_user_id uid = false) ∧
    (∀ p ∈ (["test_", "demo_", "admin_", "system_"] : List String),
      strStartsWith uid p = true → is_valid_user_id uid = false) ∧
    (uid ≠ "" → 3 ≤ strLen uid →
      (∀ p ∈ (["test_", "demo_", "admin_", "system_"] : List String),
        strStartsWith uid p = false) →
      is_valid_user_id uid = true) := by
  refine ⟨?_, ?_, ?_⟩
  · intro h
    simp [is_valid_user_id, h]
  · intro p hp hsw
    simp only [is_valid_user_id]
    split_ifs with h1 h2
    · rfl
    · rfl
    · exact absurd (List.any_eq_true.mpr ⟨p, hp, hsw⟩) h2
  · intro hne h3 hall
    simp only [is_valid_user_id]
    split_ifs with h1 h2
    · exfalso
      rcases (by simpa using h1 : uid = "" ∨ strLen uid < 3) with h | h
      · exact hne h
      · omega
    · exfalso
      simp only [List.any_eq_true] at h2
      rcases h2 with ⟨p, hp, hpr⟩
      have hfalse := hall p hp
      simp_all
    · rfl

/-- Claim C10, witness: the theorem applied to three concrete user ids — a
two-character id is rejected, a reserved-prefix id is rejected, and an
ordinary id is accepted. -/
theorem C10_witness :
    is_valid_user_id "ab" = false ∧
    is_valid_user_id "test_user" = false ∧
    is_valid_user_id "user_123" = true :=
  ⟨(C10_user_id_validation "ab").1 (by decide),
   (C10_user_id_validation "test_user").2.1 "test_" (by decide) (by decide),
   (C10_user_id_validation "user_123").2.2 (by decide) (by decide) (by decide)⟩
